import Mathlib

/-!
Shallow embedding of `src/app.py`, the Colombian nutrition-facts-label
generator (Resolución 810/2021).  Numeric values are modelled as exact
rationals; Python's `round` is round-half-to-even.  Strings are modelled
with Lean `String` / `List Char`.  The Streamlit form layer and the Pillow
raster backend are external collaborators: drawing is modelled as the list
of primitive draw calls the code issues, parameterised by the opaque
font-metric function `measure` of the backend.
-/

/-- Python `round(q)` / `round(q, 0)`: round half to even, on an exact rational.
`Rat.floor` is used rather than `⌊·⌋` to keep the definition kernel-evaluable. -/
def pyRound (q : ℚ) : ℤ :=
  if q - q.floor < 1 / 2 then q.floor
  else if 1 / 2 < q - q.floor then q.floor + 1
  else if q.floor % 2 = 0 then q.floor else q.floor + 1

theorem Rat.floor_eq_intFloor (q : ℚ) : q.floor = ⌊q⌋ := by
  rw [Rat.floor_def', Rat.floor_def]

/-- Python `round(q, nd)` for `nd` decimal digits. -/
def pyRoundTo (q : ℚ) (nd : ℕ) : ℚ :=
  (pyRound (q * 10 ^ nd) : ℚ) / 10 ^ nd

/-- Python `int(q)`: truncation toward zero. -/
def pyInt (q : ℚ) : ℤ := q.num / (q.den : ℤ)

/-- Python numeric truthiness guard `x or 0.0` on a number. -/
def pyOrZero (x : ℚ) : ℚ := if x = 0 then 0 else x

/-- app.py `kcal_from_macros`: Atwater-factor energy (9/4/4/7/3), rounded to an
integer number of kilocalories (`float(round(kcal, 0))` in the source). -/
def kcal_from_macros (fat_g carb_g protein_g organic_acids_g alcohol_g : ℚ) : ℚ :=
  let fat_g := pyOrZero fat_g
  let carb_g := pyOrZero carb_g
  let protein_g := pyOrZero protein_g
  let organic_acids_g := pyOrZero organic_acids_g
  let alcohol_g := pyOrZero alcohol_g
  (pyRound (9 * fat_g + 4 * carb_g + 4 * protein_g + 7 * alcohol_g + 3 * organic_acids_g) : ℚ)

/-- app.py `per100_from_portion`: `round(value / portion * 100, 2)` behind the
truthiness guard `portion_size and portion_size > 0`. -/
def per100_from_portion (value_per_portion portion_size : ℚ) : ℚ :=
  if portion_size ≠ 0 ∧ portion_size > 0 then
    pyRoundTo (value_per_portion / portion_size * 100) 2
  else 0

/-- app.py `portion_from_per100`: `round(value * portion / 100, 2)` behind the
truthiness guard `portion_size and portion_size > 0`. -/
def portion_from_per100 (value_per100 portion_size : ℚ) : ℚ :=
  if portion_size ≠ 0 ∧ portion_size > 0 then
    pyRoundTo (value_per100 * portion_size / 100) 2
  else 0

theorem pyOrZero_eq (x : ℚ) : pyOrZero x = x := by
  unfold pyOrZero
  split
  · rename_i h; exact h.symm
  · rfl

theorem pyRound_near (q : ℚ) : |(pyRound q : ℚ) - q| ≤ 1 / 2 := by
  have h0 : (⌊q⌋ : ℚ) ≤ q := Int.floor_le q
  have h1 : q < (⌊q⌋ : ℚ) + 1 := Int.lt_floor_add_one q
  unfold pyRound
  rw [Rat.floor_eq_intFloor]
  split
  · rename_i h
    rw [abs_le]; constructor <;> linarith
  · rename_i h
    split
    · rename_i h'
      rw [abs_le]; constructor <;> push_cast <;> linarith
    · rename_i h'
      have h2 : q - (⌊q⌋ : ℚ) = 1 / 2 := le_antisymm (not_lt.mp h') (not_lt.mp h)
      split
      · rw [abs_le]; constructor <;> linarith
      · rw [abs_le]; constructor <;> push_cast <;> linarith

theorem pyRoundTo_two_near (q : ℚ) : |pyRoundTo q 2 - q| ≤ 1 / 200 := by
  have h := pyRound_near (q * 10 ^ 2)
  rw [abs_le] at h ⊢
  obtain ⟨h1, h2⟩ := h
  unfold pyRoundTo
  constructor <;> · norm_num at h1 h2 ⊢; linarith

/-- C1: the energy calculator returns the Atwater combination
`9·fat + 4·carb + 4·protein + 7·alcohol + 3·organic_acids` rounded to an
integer kcal (round-half-even picks a nearest integer, as the bound shows),
and in particular `energy_kcal(fat=10, carb=20, protein=5) = 190`. -/
theorem kcal_from_macros_spec (f c p oa al : ℚ) :
    kcal_from_macros f c p oa al = (pyRound (9 * f + 4 * c + 4 * p + 7 * al + 3 * oa) : ℚ) ∧
    |kcal_from_macros f c p oa al - (9 * f + 4 * c + 4 * p + 7 * al + 3 * oa)| ≤ 1 / 2 ∧
    kcal_from_macros 10 20 5 0 0 = 190 := by
  have hdef : kcal_from_macros f c p oa al
      = (pyRound (9 * f + 4 * c + 4 * p + 7 * al + 3 * oa) : ℚ) := by
    simp only [kcal_from_macros, pyOrZero_eq]
  refine ⟨hdef, ?_, by with_unfolding_all rfl⟩
  rw [hdef]
  exact pyRound_near _

/-- C2: both unit conversions apply the 2-decimal rounding of the exact ratio
when `portion_size > 0` and return `0` (without raising) when
`portion_size ≤ 0`; in particular both are `0` at portion size `0`. -/
theorem conversion_guard_spec (v p : ℚ) :
    (0 < p → per100_from_portion v p = pyRoundTo (v / p * 100) 2 ∧
      portion_from_per100 v p = pyRoundTo (v * p / 100) 2) ∧
    (p ≤ 0 → per100_from_portion v p = 0 ∧ portion_from_per100 v p = 0) ∧
    per100_from_portion 50 0 = 0 ∧ portion_from_per100 50 0 = 0 := by
  refine ⟨fun hp => ?_, fun hp => ?_, by with_unfolding_all rfl, by with_unfolding_all rfl⟩
  · have hne : p ≠ 0 := ne_of_gt hp
    constructor <;> simp [per100_from_portion, portion_from_per100, hne, hp]
  · have h2 : ¬ (0 < p) := not_lt.mpr hp
    constructor <;> simp [per100_from_portion, portion_from_per100, h2]

theorem conversion_guard_spec_witness :
    per100_from_portion 50 2 = pyRoundTo (50 / 2 * 100) 2 ∧
    per100_from_portion 50 0 = 0 ∧ portion_from_per100 50 0 = 0 := by
  refine ⟨((conversion_guard_spec 50 2).1 (by norm_num)).1, ?_, ?_⟩
  · exact ((conversion_guard_spec 50 0).2.1 (by norm_num)).1
  · exact ((conversion_guard_spec 50 0).2.1 (by norm_num)).2

/-- C3 counterexample: at `value = 0.4`, `portion_size = 10000` the per-100
value rounds to `0`, so the round trip returns `0`, which is not within the
2-decimal rounding tolerance of the original value `0.4`. -/
theorem roundtrip_fails_at_large_portion :
    per100_from_portion (2 / 5) 10000 = 0 ∧
    portion_from_per100 (per100_from_portion (2 / 5) 10000) 10000 = 0 ∧
    ¬ |portion_from_per100 (per100_from_portion (2 / 5) 10000) 10000 - 2 / 5| ≤ 1 / 100 := by
  have h1 : per100_from_portion (2 / 5) 10000 = 0 := by with_unfolding_all rfl
  have h2 : portion_from_per100 (per100_from_portion (2 / 5) 10000) 10000 = 0 := by
    with_unfolding_all rfl
  refine ⟨h1, h2, fun habs => ?_⟩
  rw [h2] at habs
  have := (abs_le.mp habs).1
  norm_num at this

/-- C3 (amended): for `0 < portion_size ≤ 100` the composition
`portion_from_per100 ∘ per100_from_portion` returns the original value up to
the accumulated 2-decimal rounding error, at most `0.01`. -/
theorem roundtrip_within_tolerance_small_portion (v p : ℚ) (hp : 0 < p) (hp100 : p ≤ 100) :
    |portion_from_per100 (per100_from_portion v p) p - v| ≤ 1 / 100 := by
  have hne : p ≠ 0 := ne_of_gt hp
  have hcond : p ≠ 0 ∧ p > 0 := ⟨hne, hp⟩
  rw [per100_from_portion, portion_from_per100, if_pos hcond, if_pos hcond]
  set a : ℚ := pyRoundTo (v / p * 100) 2 with ha
  have h1 := pyRoundTo_two_near (v / p * 100)
  have h2 := pyRoundTo_two_near (a * p / 100)
  rw [← ha] at h1
  rw [abs_le] at h1 h2 ⊢
  have expand : pyRoundTo (a * p / 100) 2 - v
      = (pyRoundTo (a * p / 100) 2 - a * p / 100) + (a - v / p * 100) * p / 100 := by
    field_simp
    ring
  have k1 : (a - v / p * 100) * p ≤ (1 / 200) * p :=
    mul_le_mul_of_nonneg_right h1.2 hp.le
  have k2 : (-(1 / 200)) * p ≤ (a - v / p * 100) * p :=
    mul_le_mul_of_nonneg_right h1.1 hp.le
  constructor <;> [skip; skip] <;> rw [expand] <;> nlinarith [h2.1, h2.2, hp, hp100, k1, k2]

theorem roundtrip_within_tolerance_small_portion_witness :
    |portion_from_per100 (per100_from_portion 7 50) 50 - 7| ≤ 1 / 100 :=
  roundtrip_within_tolerance_small_portion 7 50 (by norm_num) (by norm_num)

/-! ## Numeric coercion `as_num` (app.py lines 33-39)

`as_num` stringifies its argument, maps empty/whitespace-only input to `0.0`,
replaces `,` by `.`, and parses with Python `float(...)`, catching every
exception to `0.0`.  The parser below models Python's `float` on finite
decimal literals (sign, digits, optional fraction, optional exponent,
surrounding whitespace); the special float literals `inf`/`nan` have no
rational counterpart and are outside the model. -/

/-- Replace every comma by a dot: Python `s.replace(",", ".")`. -/
def replaceCommas (cs : List Char) : List Char :=
  cs.map fun c => if c = ',' then '.' else c

/-- Python `s.strip()` on a character list. -/
def pyStripChars (cs : List Char) : List Char :=
  ((cs.dropWhile Char.isWhitespace).reverse.dropWhile Char.isWhitespace).reverse

def digitVal (c : Char) : ℕ := c.toNat - '0'.toNat

def digitsToNat (cs : List Char) : ℕ :=
  cs.foldl (fun a c => 10 * a + digitVal c) 0

/-- Optional sign of a float literal. -/
def parseSign : List Char → ℚ × List Char
  | '+' :: cs => (1, cs)
  | '-' :: cs => (-1, cs)
  | cs => (1, cs)

/-- Mantissa of a float literal: `digits [. digits]` with at least one digit. -/
def parseMantissa (cs : List Char) : Option (ℚ × List Char) :=
  let ip := cs.takeWhile Char.isDigit
  let rest := cs.dropWhile Char.isDigit
  match rest with
  | '.' :: rest2 =>
    let fp := rest2.takeWhile Char.isDigit
    let rest3 := rest2.dropWhile Char.isDigit
    if ip.isEmpty && fp.isEmpty then none
    else some ((digitsToNat ip : ℚ) + (digitsToNat fp : ℚ) / 10 ^ fp.length, rest3)
  | _ => if ip.isEmpty then none else some ((digitsToNat ip : ℚ), rest)

/-- Signed digit string after `e`/`E`; at least one digit required. -/
def parseExpTail (cs : List Char) : Option (ℤ × List Char) :=
  let sc : ℤ × List Char :=
    match cs with
    | '+' :: r => (1, r)
    | '-' :: r => (-1, r)
    | r => (1, r)
  let ds := sc.2.takeWhile Char.isDigit
  let rest := sc.2.dropWhile Char.isDigit
  if ds.isEmpty then none else some (sc.1 * (digitsToNat ds : ℤ), rest)

def parseExponent : List Char → Option (ℤ × List Char)
  | 'e' :: cs => parseExpTail cs
  | 'E' :: cs => parseExpTail cs
  | cs => some (0, cs)

/-- Python `float(s)` on a finite decimal literal, `none` on malformed input. -/
def pyFloatChars (cs : List Char) : Option ℚ :=
  let cs1 := cs.dropWhile Char.isWhitespace
  let sc := parseSign cs1
  match parseMantissa sc.2 with
  | none => none
  | some (m, cs3) =>
    match parseExponent cs3 with
    | none => none
    | some (e, cs4) =>
      if cs4.dropWhile Char.isWhitespace = [] then some (sc.1 * m * (10 : ℚ) ^ e) else none

/-- app.py `as_num`: `None`/empty/whitespace-only input and any parse failure
coerce to `0.0`; otherwise the text, with `,` replaced by `.`, is parsed. -/
def as_num (x : Option String) : ℚ :=
  match x with
  | none => 0
  | some s =>
    if pyStripChars s.data = [] then 0
    else
      match pyFloatChars (replaceCommas s.data) with
      | some v => v
      | none => 0

theorem isWhitespace_replaceComma (c : Char) :
    (if c = ',' then '.' else c).isWhitespace = c.isWhitespace := by
  split
  · rename_i h
    subst h
    rfl
  · rfl

theorem pyStripChars_eq_nil_iff (cs : List Char) :
    pyStripChars cs = [] ↔ ∀ c ∈ cs, c.isWhitespace := by
  unfold pyStripChars
  rw [List.reverse_eq_nil_iff, List.dropWhile_eq_nil_iff]
  constructor
  · intro h c hc
    have hsplit : c ∈ cs.takeWhile Char.isWhitespace ++ cs.dropWhile Char.isWhitespace := by
      rw [List.takeWhile_append_dropWhile]; exact hc
    rcases List.mem_append.mp hsplit with h3 | h3
    · exact List.mem_takeWhile_imp h3
    · exact h c (List.mem_reverse.mpr h3)
  · intro h c hc
    exact h c ((List.dropWhile_sublist _).subset (List.mem_reverse.mp hc))

theorem replaceCommas_idem (cs : List Char) :
    replaceCommas (replaceCommas cs) = replaceCommas cs := by
  unfold replaceCommas
  rw [List.map_map]
  refine List.map_congr_left fun c _ => ?_
  by_cases h : c = ','
  · subst h; rfl
  · simp [h]

/-- C7: `as_num` maps `None`, whitespace-only, and unparseable input to `0.0`
without raising (it is a total function), returns the parsed value exactly
when the comma-normalised text parses, and behaves so on concrete inputs. -/
theorem as_num_total_spec :
    as_num none = 0 ∧
    (∀ s : String, (∀ c ∈ s.data, c.isWhitespace) → as_num (some s) = 0) ∧
    (∀ s : String, pyFloatChars (replaceCommas s.data) = none → as_num (some s) = 0) ∧
    (∀ (s : String) (v : ℚ), pyFloatChars (replaceCommas s.data) = some v →
      ¬ (∀ c ∈ s.data, c.isWhitespace) → as_num (some s) = v) ∧
    as_num (some "") = 0 ∧
    as_num (some "   ") = 0 ∧
    as_num (some "abc") = 0 ∧
    as_num (some "12x") = 0 ∧
    as_num (some " -4.25e1 ") = -85 / 2 ∧
    as_num (some "7") = 7 := by
  refine ⟨rfl, ?_, ?_, ?_, by with_unfolding_all rfl, by with_unfolding_all rfl,
    by with_unfolding_all rfl, by with_unfolding_all rfl, by with_unfolding_all rfl,
    by with_unfolding_all rfl⟩
  · intro s hws
    simp [as_num, (pyStripChars_eq_nil_iff s.data).mpr hws]
  · intro s hparse
    by_cases hnil : pyStripChars s.data = []
    · simp [as_num, hnil]
    · simp [as_num, hnil, hparse]
  · intro s v hparse hws
    have hnil : ¬ pyStripChars s.data = [] := fun h => hws ((pyStripChars_eq_nil_iff s.data).mp h)
    simp [as_num, hnil, hparse]

theorem as_num_total_spec_witness :
    as_num (some " x ") = 0 ∧ as_num (some "+1.5") = 3 / 2 := by
  constructor
  · exact as_num_total_spec.2.2.1 " x " (by with_unfolding_all rfl)
  · exact as_num_total_spec.2.2.2.1 "+1.5" (3 / 2) (by with_unfolding_all rfl)
      (by intro h; exact absurd (h '+' (by simp [String.data])) (by decide))

/-- C10: `as_num` replaces every comma by a dot before parsing, so it parses
`"3,5"` as `3.5` — a string the plain float parser rejects — and is invariant
under the comma replacement on every input. -/
theorem as_num_comma_decimal :
    as_num (some "3,5") = 7 / 2 ∧
    as_num (some "3.5") = 7 / 2 ∧
    pyFloatChars "3,5".data = none ∧
    (∀ s : String, as_num (some s) = as_num (some (String.mk (replaceCommas s.data)))) := by
  refine ⟨by with_unfolding_all rfl, by with_unfolding_all rfl, by with_unfolding_all rfl, ?_⟩
  intro s
  have hsome : ∀ t : String, as_num (some t)
      = if pyStripChars t.data = [] then 0
        else
          match pyFloatChars (replaceCommas t.data) with
          | some v => v
          | none => 0 := fun _ => rfl
  have hws : (pyStripChars (replaceCommas s.data) = []) ↔ (pyStripChars s.data = []) := by
    rw [pyStripChars_eq_nil_iff, pyStripChars_eq_nil_iff]
    constructor
    · intro h c hc
      have := h _ (List.mem_map_of_mem (fun c => if c = ',' then '.' else c) hc)
      rwa [isWhitespace_replaceComma] at this
    · intro h c hc
      rcases List.mem_map.mp hc with ⟨d, hd, rfl⟩
      rw [isWhitespace_replaceComma]
      exact h d hd
  rw [hsome s, hsome (String.mk (replaceCommas s.data))]
  have hdata : (String.mk (replaceCommas s.data)).data = replaceCommas s.data := rfl
  rw [hdata, replaceCommas_idem]
  by_cases hnil : pyStripChars s.data = []
  · rw [if_pos hnil, if_pos (hws.mpr hnil)]
  · rw [if_neg hnil, if_neg (fun h => hnil (hws.mp h))]

/-! ## Numeric formatting helpers (app.py lines 77-124)

Python fixed-point formatting `f"{x:.{nd}f}"` rounds half-to-even at `nd`
decimal digits; `rstrip(c)` removes every trailing occurrence of `c`. -/

/-- Python `s.rstrip(c)` for a single character. -/
def rstripChar (cs : List Char) (c : Char) : List Char :=
  (cs.reverse.dropWhile fun d => d = c).reverse

def padLeftZeros (s : List Char) (n : ℕ) : List Char :=
  List.replicate (n - s.length) '0' ++ s

/-- Python `f"{x:.{nd}f}"` on an exact rational. -/
def fmtFixed (x : ℚ) (nd : ℕ) : List Char :=
  let n := pyRound (x * 10 ^ nd)
  let sign : List Char := if n < 0 then ['-'] else []
  let m := n.natAbs
  if nd = 0 then sign ++ (Nat.repr m).data
  else sign ++ (Nat.repr (m / 10 ^ nd)).data ++ '.' :: padLeftZeros (Nat.repr (m % 10 ^ nd)).data nd

/-- app.py `fmt_g`: grams with `nd` decimals and a ` g` suffix (the source
applies `rstrip` to the suffixed text, then re-appends ` g` only for `nd = 0`). -/
def fmt_g (x : ℚ) (nd : ℕ) : String :=
  String.mk (rstripChar (rstripChar (fmtFixed x nd ++ [' ', 'g']) '0') '.')
    ++ (if nd = 0 then " g" else "")

/-- app.py `fmt_g_only`: `f"{x:.{nd}f}".rstrip("0").rstrip(".")`. -/
def fmt_g_only (x : ℚ) (nd : ℕ) : String :=
  String.mk (rstripChar (rstripChar (fmtFixed x nd) '0') '.')

/-- app.py `fmt_mg_int`: `f"{int(round(x))} mg"`. -/
def fmt_mg_int (x : ℚ) : String := toString (pyRound x) ++ " mg"

/-- app.py `fmt_ug`. -/
def fmt_ug (x : ℚ) (nd : ℕ) : String :=
  String.mk (rstripChar (rstripChar (fmtFixed x nd) '0') '.') ++ " µg"

/-- app.py `fmt_uger`. -/
def fmt_uger (x : ℚ) (nd : ℕ) : String :=
  String.mk (rstripChar (rstripChar (fmtFixed x nd) '0') '.') ++ " µg ER"

/-- app.py `fmt_kcal`: `f"{int(round(x))}"`. -/
def fmt_kcal (x : ℚ) : String := toString (pyRound x)

/-! ## Micronutrient helpers (app.py lines 408-433) -/

/-- Whether `pat` occurs as a contiguous segment at the head of `cs`. -/
def startsWithSeg : List Char → List Char → Bool
  | _, [] => true
  | [], _ :: _ => false
  | c :: cs, d :: ds => c == d && startsWithSeg cs ds

/-- Whether `pat` occurs as a contiguous segment of `cs` (Python `pat in cs`). -/
def containsSeg : List Char → List Char → Bool
  | [], pat => pat.isEmpty
  | c :: cs, pat => startsWithSeg (c :: cs) pat || containsSeg cs pat

/-- app.py `vm_unit_of`: unit tag read off the parenthesis in the option name. -/
def vm_unit_of (vm_name : String) : String :=
  if containsSeg vm_name.data "(µg ER)".data then "µg ER"
  else if containsSeg vm_name.data "(µg)".data then "µg"
  else if containsSeg vm_name.data "(mg)".data then "mg"
  else ""

/-- app.py `clean_vm_label`: `name.split(" (")[0]`. -/
def clean_vm_label_chars : List Char → List Char
  | [] => []
  | ' ' :: '(' :: _ => []
  | c :: cs => c :: clean_vm_label_chars cs

def clean_vm_label (name : String) : String := String.mk (clean_vm_label_chars name.data)

/-- app.py `fmt_vm_value`: value formatting dispatched on the unit tag. -/
def fmt_vm_value (name : String) (v : ℚ) : String :=
  let unit := vm_unit_of name
  if unit = "µg ER" then fmt_uger v 1
  else if unit = "µg" then fmt_ug v 1
  else if unit = "mg" then fmt_mg_int v
  else fmt_g v 1

/-- The fixed multiselect options of the sidebar (app.py `vm_options`). -/
def vm_options : List String :=
  ["Vitamina A (µg ER)", "Vitamina D (µg)", "Calcio (mg)", "Hierro (mg)", "Zinc (mg)",
   "Potasio (mg)", "Vitamina C (mg)", "Vitamina E (mg)", "Vitamina B12 (µg)",
   "Ácido fólico (µg)"]

/-! ## Form state and normalization (app.py lines 175-330) -/

/-- The basis selector `input_basis` (`"Por porción"` / `"Por 100 g/mL"`). -/
inductive InputBasis where
  | porPorcion : InputBasis
  | por100 : InputBasis
deriving DecidableEq

/-- The numeric form state after `as_num` coercion, plus the selectors the
renderers read.  The Streamlit widget layer is an external collaborator. -/
structure Inputs where
  is_liquid : Bool
  input_basis : InputBasis
  portion_size : ℚ
  servings_per_pack : ℚ
  include_kj : Bool
  fat_total_input : ℚ
  sat_fat_input : ℚ
  trans_fat_input_mg : ℚ
  carb_input : ℚ
  sugars_total_input : ℚ
  sugars_added_input : ℚ
  fiber_input : ℚ
  protein_input : ℚ
  sodium_input_mg : ℚ
  selected_vm : List String
  vm_value : String → ℚ
  footnote_base : String

/-- The per-portion / per-100 nutrient values of app.py lines 264-309. -/
structure BasisVals where
  fat_total_pp : ℚ
  fat_total_100 : ℚ
  sat_fat_pp : ℚ
  sat_fat_100 : ℚ
  trans_fat_pp : ℚ
  trans_fat_100 : ℚ
  carb_pp : ℚ
  carb_100 : ℚ
  sugars_total_pp : ℚ
  sugars_total_100 : ℚ
  sugars_added_pp : ℚ
  sugars_added_100 : ℚ
  fiber_pp : ℚ
  fiber_100 : ℚ
  protein_pp : ℚ
  protein_100 : ℚ
  sodium_pp_mg : ℚ
  sodium_100_mg : ℚ

/-- Lines 264-305: the entered basis is authoritative, the other is derived.
Trans fat enters in mg and is converted to grams (`/1000`) first (line 246). -/
def basisVals (i : Inputs) : BasisVals :=
  let trans_fat_input_g := i.trans_fat_input_mg / 1000
  match i.input_basis with
  | .porPorcion =>
    { fat_total_pp := i.fat_total_input
      fat_total_100 := per100_from_portion i.fat_total_input i.portion_size
      sat_fat_pp := i.sat_fat_input
      sat_fat_100 := per100_from_portion i.sat_fat_input i.portion_size
      trans_fat_pp := trans_fat_input_g
      trans_fat_100 := per100_from_portion trans_fat_input_g i.portion_size
      carb_pp := i.carb_input
      carb_100 := per100_from_portion i.carb_input i.portion_size
      sugars_total_pp := i.sugars_total_input
      sugars_total_100 := per100_from_portion i.sugars_total_input i.portion_size
      sugars_added_pp := i.sugars_added_input
      sugars_added_100 := per100_from_portion i.sugars_added_input i.portion_size
      fiber_pp := i.fiber_input
      fiber_100 := per100_from_portion i.fiber_input i.portion_size
      protein_pp := i.protein_input
      protein_100 := per100_from_portion i.protein_input i.portion_size
      sodium_pp_mg := i.sodium_input_mg
      sodium_100_mg := per100_from_portion i.sodium_input_mg i.portion_size }
  | .por100 =>
    { fat_total_pp := portion_from_per100 i.fat_total_input i.portion_size
      fat_total_100 := i.fat_total_input
      sat_fat_pp := portion_from_per100 i.sat_fat_input i.portion_size
      sat_fat_100 := i.sat_fat_input
      trans_fat_pp := portion_from_per100 trans_fat_input_g i.portion_size
      trans_fat_100 := trans_fat_input_g
      carb_pp := portion_from_per100 i.carb_input i.portion_size
      carb_100 := i.carb_input
      sugars_total_pp := portion_from_per100 i.sugars_total_input i.portion_size
      sugars_total_100 := i.sugars_total_input
      sugars_added_pp := portion_from_per100 i.sugars_added_input i.portion_size
      sugars_added_100 := i.sugars_added_input
      fiber_pp := portion_from_per100 i.fiber_input i.portion_size
      fiber_100 := i.fiber_input
      protein_pp := portion_from_per100 i.protein_input i.portion_size
      protein_100 := i.protein_input
      sodium_pp_mg := portion_from_per100 i.sodium_input_mg i.portion_size
      sodium_100_mg := i.sodium_input_mg }

/-- The fully normalized per-render state (lines 264-329): both bases, trans
fat converted back to mg after normalization, micronutrient dictionaries,
energy per basis, optional kilojoules. -/
structure Normalized where
  vals : BasisVals
  trans_100_mg : ℚ
  trans_pp_mg : ℚ
  vm_pp : String → ℚ
  vm_100 : String → ℚ
  kcal_pp : ℚ
  kcal_100 : ℚ
  kj_pp : Option ℤ
  kj_100 : Option ℤ

def normalizeState (i : Inputs) : Normalized :=
  let b := basisVals i
  let kcal_pp := kcal_from_macros b.fat_total_pp b.carb_pp b.protein_pp 0 0
  let kcal_100 := kcal_from_macros b.fat_total_100 b.carb_100 b.protein_100 0 0
  { vals := b
    trans_100_mg := b.trans_fat_100 * 1000
    trans_pp_mg := b.trans_fat_pp * 1000
    vm_pp := fun vm =>
      if vm ∈ i.selected_vm then
        match i.input_basis with
        | .porPorcion => i.vm_value vm
        | .por100 => portion_from_per100 (i.vm_value vm) i.portion_size
      else 0
    vm_100 := fun vm =>
      if vm ∈ i.selected_vm then
        match i.input_basis with
        | .porPorcion => per100_from_portion (i.vm_value vm) i.portion_size
        | .por100 => i.vm_value vm
      else 0
    kcal_pp := kcal_pp
    kcal_100 := kcal_100
    kj_pp := if i.include_kj then some (pyRound (kcal_pp * (4184 / 1000))) else none
    kj_100 := if i.include_kj then some (pyRound (kcal_100 * (4184 / 1000))) else none }

/-! ## Common label texts (app.py lines 395-405) -/

def portion_unit (i : Inputs) : String := if i.is_liquid then "mL" else "g"

def per100_label (i : Inputs) : String :=
  if !i.is_liquid then "Por 100 g" else "Por 100 mL"

def perportion_label : String := "Por porción"

def portion_label_text (i : Inputs) : String :=
  "Tamaño de porción: 1 unidad (" ++ toString (pyRound i.portion_size) ++ portion_unit i ++ ")"

def servings_label_text (i : Inputs) : String :=
  "Número de porciones por envase: Aprox. " ++ fmt_g_only i.servings_per_pack 0

def cal_100_txt (i : Inputs) (n : Normalized) : String :=
  fmt_kcal n.kcal_100 ++
    (if i.include_kj then
      " (" ++ (match n.kj_100 with | some kj => toString kj | none => "") ++ " kJ)"
    else "")

def cal_pp_txt (i : Inputs) (n : Normalized) : String :=
  fmt_kcal n.kcal_pp ++
    (if i.include_kj then
      " (" ++ (match n.kj_pp with | some kj => toString kj | none => "") ++ " kJ)"
    else "")

/-- app.py line 574-578 / 661-663 / 790-792 / 890-892: the footnote is the
fixed literal followed by the stripped user suffix. -/
def foot_str (i : Inputs) : String :=
  let tail := String.mk (pyStripChars i.footnote_base.data)
  if tail ≠ "" then "No es fuente significativa de " ++ tail
  else "No es fuente significativa de "

/-! ## Drawing model (app.py lines 131-171, 355-390)

Colors are constant (black on white) and carried implicitly.  `measure` is
the Pillow font-metric oracle `font.getbbox` (an external collaborator) and
is a parameter of every renderer; the computed page heights and the row
structure do not depend on it. -/

structure Font where
  size : ℕ
  bold : Bool
deriving DecidableEq

inductive Align where
  | left : Align
  | right : Align
  | center : Align
deriving DecidableEq

/-- One primitive draw call: `draw_line`, `draw_rect` or `text` in app.py. -/
inductive DrawOp where
  | line : ℚ → ℚ → ℚ → ℚ → ℚ → DrawOp
  | rect : ℚ → ℚ → ℚ → ℚ → ℚ → DrawOp
  | text : ℚ → ℚ → String → Font → Align → DrawOp
deriving DecidableEq

abbrev Measure := String → Font → ℤ × ℤ

def THICK : ℚ := 4
def MEDIUM : ℚ := 3
def THIN : ℚ := 2
def PADDING : ℚ := 18
def ROW_H : ℚ := 42
def HEAD_H : ℚ := 56
def TITLE_FS : ℕ := 30
def BASE_FS : ℕ := 22
def SMALL_FS : ℕ := 19

def FONT_REG (s : ℕ) : Font := ⟨s, false⟩
def FONT_BOLD (s : ℕ) : Font := ⟨s, true⟩

def isLine : DrawOp → Bool
  | .line _ _ _ _ _ => true
  | _ => false

def isText : DrawOp → Bool
  | .text _ _ _ _ _ => true
  | _ => false

def textContent : DrawOp → Option String
  | .text _ _ s _ _ => some s
  | _ => none

/-! ## Table rows of the four figures -/

/-- One nutrient row: left label, per-100 cell, per-portion cell, bold flag. -/
structure Row where
  label : String
  v100 : String
  vpp : String
  bold : Bool
deriving DecidableEq

/-- Figure 1 macro rows (app.py lines 516-526). -/
def fig1_rows (n : Normalized) : List Row :=
  [⟨"Grasa total", fmt_g_only n.vals.fat_total_100 1 ++ " g",
      fmt_g_only n.vals.fat_total_pp 1 ++ " g", false⟩,
   ⟨"Grasa poliinsaturada", fmt_g_only 0 1 ++ " g", fmt_g_only 0 1 ++ " g", false⟩,
   ⟨"Grasa saturada", fmt_g_only n.vals.sat_fat_100 1 ++ " g",
      fmt_g_only n.vals.sat_fat_pp 1 ++ " g", true⟩,
   ⟨"Grasa trans", fmt_mg_int n.trans_100_mg, fmt_mg_int n.trans_pp_mg, true⟩,
   ⟨"Carbohidratos totales", fmt_g_only n.vals.carb_100 1 ++ " g",
      fmt_g_only n.vals.carb_pp 1 ++ " g", false⟩,
   ⟨"Fibra dietaria", fmt_g_only n.vals.fiber_100 1 ++ " g",
      fmt_g_only n.vals.fiber_pp 1 ++ " g", false⟩,
   ⟨"Azúcares totales", fmt_g_only n.vals.sugars_total_100 1 ++ " g",
      fmt_g_only n.vals.sugars_total_pp 1 ++ " g", false⟩,
   ⟨"Azúcares añadidos", fmt_g_only n.vals.sugars_added_100 1 ++ " g",
      fmt_g_only n.vals.sugars_added_pp 1 ++ " g", true⟩,
   ⟨"Proteína", fmt_g_only n.vals.protein_100 1 ++ " g",
      fmt_g_only n.vals.protein_pp 1 ++ " g", false⟩]

/-- Figure 3 rows (app.py lines 638-646). -/
def fig3_rows (n : Normalized) : List Row :=
  [⟨"Grasa total", fmt_g_only n.vals.fat_total_100 1 ++ " g",
      fmt_g_only n.vals.fat_total_pp 1 ++ " g", false⟩,
   ⟨"Grasa saturada", fmt_g_only n.vals.sat_fat_100 1 ++ " g",
      fmt_g_only n.vals.sat_fat_pp 1 ++ " g", true⟩,
   ⟨"Grasa trans", fmt_mg_int n.trans_100_mg, fmt_mg_int n.trans_pp_mg, true⟩,
   ⟨"Carbohidratos totales", fmt_g_only n.vals.carb_100 1 ++ " g",
      fmt_g_only n.vals.carb_pp 1 ++ " g", false⟩,
   ⟨"Azúcares totales", fmt_g_only n.vals.sugars_total_100 1 ++ " g",
      fmt_g_only n.vals.sugars_total_pp 1 ++ " g", false⟩,
   ⟨"Azúcares añadidos", fmt_g_only n.vals.sugars_added_100 1 ++ " g",
      fmt_g_only n.vals.sugars_added_pp 1 ++ " g", true⟩,
   ⟨"Sodio", fmt_mg_int n.vals.sodium_100_mg, fmt_mg_int n.vals.sodium_pp_mg, true⟩]

/-- Figure 4 rows (app.py lines 740-750); note `Sodio` right after `Grasa Trans`. -/
def fig4_rows (n : Normalized) : List Row :=
  [⟨"Grasa total", fmt_g_only n.vals.fat_total_100 1 ++ " g",
      fmt_g_only n.vals.fat_total_pp 1 ++ " g", false⟩,
   ⟨"Grasa saturada", fmt_g_only n.vals.sat_fat_100 1 ++ " g",
      fmt_g_only n.vals.sat_fat_pp 1 ++ " g", true⟩,
   ⟨"Grasa Trans", fmt_mg_int n.trans_100_mg, fmt_mg_int n.trans_pp_mg, true⟩,
   ⟨"Sodio", fmt_mg_int n.vals.sodium_100_mg, fmt_mg_int n.vals.sodium_pp_mg, true⟩,
   ⟨"Carbohidratos totales", fmt_g_only n.vals.carb_100 1 ++ " g",
      fmt_g_only n.vals.carb_pp 1 ++ " g", false⟩,
   ⟨"Fibra dietaria", fmt_g_only n.vals.fiber_100 1 ++ " g",
      fmt_g_only n.vals.fiber_pp 1 ++ " g", false⟩,
   ⟨"Azúcares totales", fmt_g_only n.vals.sugars_total_100 1 ++ " g",
      fmt_g_only n.vals.sugars_total_pp 1 ++ " g", false⟩,
   ⟨"Azúcares añadidos", fmt_g_only n.vals.sugars_added_100 1 ++ " g",
      fmt_g_only n.vals.sugars_added_pp 1 ++ " g", true⟩,
   ⟨"Proteína", fmt_g_only n.vals.protein_100 1 ++ " g",
      fmt_g_only n.vals.protein_pp 1 ++ " g", false⟩]

/-- A micronutrient row (identical formatting dispatch in figures 1 and 4,
app.py lines 552-566 and 765-778). -/
def vmRow (n : Normalized) (vm : String) : Row :=
  let v100 := n.vm_100 vm
  let vpp := n.vm_pp vm
  let unit := vm_unit_of vm
  let label := clean_vm_label vm
  if unit = "µg ER" then ⟨label, fmt_uger v100 1, fmt_uger vpp 1, false⟩
  else if unit = "µg" then ⟨label, fmt_ug v100 1, fmt_ug vpp 1, false⟩
  else ⟨label, fmt_mg_int v100, fmt_mg_int vpp, false⟩

/-- All nutrient rows of Figure 1 in emission order: the Calorías row, the
macro block, the Sodio block, then the selected micronutrients. -/
def fig1_rowEntries (i : Inputs) : List Row :=
  let n := normalizeState i
  ⟨"Calorías (kcal)", cal_100_txt i n, cal_pp_txt i n, true⟩ ::
    (fig1_rows n ++
      (⟨"Sodio", fmt_mg_int n.vals.sodium_100_mg, fmt_mg_int n.vals.sodium_pp_mg, true⟩ ::
        i.selected_vm.map (vmRow n)))

/-- All nutrient rows of Figure 3 in emission order. -/
def fig3_rowEntries (i : Inputs) : List Row :=
  let n := normalizeState i
  ⟨"Calorías (kcal)", cal_100_txt i n, cal_pp_txt i n, true⟩ :: fig3_rows n

/-- All nutrient rows of Figure 4 in emission order. -/
def fig4_rowEntries (i : Inputs) : List Row :=
  let n := normalizeState i
  ⟨"Calorías (kcal)", cal_100_txt i n, cal_pp_txt i n, true⟩ ::
    (fig4_rows n ++ i.selected_vm.map (vmRow n))

/-- The `for label, v100, vpp, is_bold in rows` loop shared by figures 1, 3
and 4: one thin rule plus three cells per row, stepping `ROW_H`. -/
def tableRowOps (lx vx px W : ℚ) : List Row → ℚ → List DrawOp × ℚ
  | [], y => ([], y)
  | r :: rs, y =>
    let f := if r.bold then FONT_BOLD BASE_FS else FONT_REG BASE_FS
    let rest := tableRowOps lx vx px W rs (y + ROW_H)
    (DrawOp.line THIN y (W - THIN) y THIN ::
     DrawOp.text lx (y + ROW_H / 2) r.label f Align.left ::
     DrawOp.text vx (y + ROW_H / 2) r.v100 f Align.right ::
     DrawOp.text px (y + ROW_H / 2) r.vpp f Align.right :: rest.1, rest.2)

/-- Figure 1 micronutrient loop (app.py lines 552-570): three regular cells
per row, no per-row rule, stepping `ROW_H`. -/
def fig1VmOps (vx px : ℚ) : List Row → ℚ → List DrawOp × ℚ
  | [], y => ([], y)
  | r :: rs, y =>
    let rest := fig1VmOps vx px rs (y + ROW_H)
    (DrawOp.text PADDING (y + ROW_H / 2) r.label (FONT_REG BASE_FS) Align.left ::
     DrawOp.text vx (y + ROW_H / 2) r.v100 (FONT_REG BASE_FS) Align.right ::
     DrawOp.text px (y + ROW_H / 2) r.vpp (FONT_REG BASE_FS) Align.right :: rest.1, rest.2)

/-- Figure 4 micronutrient loop (app.py lines 765-785): one thin rule plus
three regular cells per row, stepping `int(ROW_H * 0.9)`. -/
def fig4VmOps (lx vx px W : ℚ) : List Row → ℚ → List DrawOp × ℚ
  | [], y => ([], y)
  | r :: rs, y =>
    let step : ℚ := (pyInt (ROW_H * (9 / 10)) : ℚ)
    let rest := fig4VmOps lx vx px W rs (y + step)
    (DrawOp.line THIN y (W - THIN) y THIN ::
     DrawOp.text lx (y + step / 2) r.label (FONT_REG BASE_FS) Align.left ::
     DrawOp.text vx (y + step / 2) r.v100 (FONT_REG BASE_FS) Align.right ::
     DrawOp.text px (y + step / 2) r.vpp (FONT_REG BASE_FS) Align.right :: rest.1, rest.2)

/-! ## Figure 1 — vertical (app.py lines 438-581) -/

def draw_figure1_vertical (mea : Measure) (i : Inputs) : ℚ × List DrawOp :=
  let n := normalizeState i
  let W : ℚ := 1320
  let left_col_w : ℚ := 620
  let col_w : ℚ := (W - left_col_w) / 2
  let base_rows : ℚ := 2 + 1 + 1 + 8 + 1
  let vm_rows := i.selected_vm.length
  let total_rows : ℚ := base_rows + (if 0 < vm_rows then (vm_rows : ℚ) else 0) + 2
  let H : ℚ := 180 + total_rows * ROW_H
  let title_font := FONT_BOLD TITLE_FS
  let h_title : ℤ := (mea "Información Nutricional" title_font).2
  let y1 : ℚ := PADDING + (h_title : ℚ) + 12
  let y2 := y1 + 8
  let y3 := y2 + ROW_H - 8
  let y4 := y3 + ROW_H - 10
  let y5 := y4 + 6
  let header_y := y5 - ROW_H / 2
  let x1 := left_col_w
  let x2 := left_col_w + col_w
  let y6 := y5 + ROW_H + 6
  let rowres := tableRowOps PADDING (x1 + col_w - 10) (x2 + col_w - 10) W (fig1_rows n) y6
  let y7 := rowres.2
  let y8 := y7 + 6
  let y9 := y8 + ROW_H + 6
  let vmres :=
    if i.selected_vm = [] then (([] : List DrawOp), y9)
    else
      let r := fig1VmOps (x1 + col_w - 10) (x2 + col_w - 10) (i.selected_vm.map (vmRow n)) (y9 + 4)
      (r.1 ++ [DrawOp.line THIN r.2 (W - THIN) r.2 THIN], r.2)
  let yB := vmres.2 + 8
  (H,
    (DrawOp.rect THIN THIN (W - THIN) (H - THIN) THICK ::
     DrawOp.text (W / 2) (PADDING + ((h_title.fdiv 2 : ℤ) : ℚ)) "Información Nutricional"
       title_font Align.center ::
     DrawOp.line THIN y1 (W - THIN) y1 THICK ::
     DrawOp.text PADDING (y2 + 6) (portion_label_text i) (FONT_REG SMALL_FS) Align.left ::
     DrawOp.text PADDING y3 (servings_label_text i) (FONT_REG SMALL_FS) Align.left ::
     DrawOp.line THIN y4 (W - THIN) y4 THICK ::
     DrawOp.text PADDING (y5 + ROW_H / 2) "Calorías (kcal)" (FONT_BOLD BASE_FS) Align.left ::
     DrawOp.line x1 header_y x1 (H - THIN) MEDIUM ::
     DrawOp.line x2 header_y x2 (H - THIN) MEDIUM ::
     DrawOp.text (x1 + col_w / 2) (y5 - 6) (per100_label i) (FONT_REG BASE_FS) Align.center ::
     DrawOp.text (x2 + col_w / 2) (y5 - 6) perportion_label (FONT_REG BASE_FS) Align.center ::
     DrawOp.text (x2 - 10) (y5 + ROW_H / 2) (cal_pp_txt i n) (FONT_BOLD BASE_FS) Align.right ::
     DrawOp.text (x1 + col_w - 10) (y5 + ROW_H / 2) (cal_100_txt i n) (FONT_BOLD BASE_FS)
       Align.right ::
     DrawOp.line THIN y6 (W - THIN) y6 THICK ::
     rowres.1) ++
    (DrawOp.line THIN y7 (W - THIN) y7 THICK ::
     DrawOp.text PADDING (y8 + ROW_H / 2) "Sodio" (FONT_BOLD BASE_FS) Align.left ::
     DrawOp.text (x1 + col_w - 10) (y8 + ROW_H / 2) (fmt_mg_int n.vals.sodium_100_mg)
       (FONT_BOLD BASE_FS) Align.right ::
     DrawOp.text (x2 + col_w - 10) (y8 + ROW_H / 2) (fmt_mg_int n.vals.sodium_pp_mg)
       (FONT_BOLD BASE_FS) Align.right ::
     DrawOp.line THIN y9 (W - THIN) y9 THICK ::
     vmres.1) ++
    [DrawOp.text PADDING (yB + 4) (foot_str i) (FONT_REG SMALL_FS) Align.left])

/-! ## Figure 3 — simplified (app.py lines 586-666) -/

def draw_figure3_simple (mea : Measure) (i : Inputs) : ℚ × List DrawOp :=
  let n := normalizeState i
  let W : ℚ := 1180
  let left_col_w : ℚ := 560
  let col_w : ℚ := (W - left_col_w) / 2
  let rows_count : ℚ := 2 + 1 + 1 + 7 + 2
  let H : ℚ := 160 + rows_count * ROW_H
  let title_font := FONT_BOLD TITLE_FS
  let h_title : ℤ := (mea "Información Nutricional" title_font).2
  let y1 : ℚ := PADDING + (h_title : ℚ) + 12
  let y2 := y1 + 6
  let y3 := y2 + ROW_H - 8
  let y4 := y3 + ROW_H - 10
  let x1 := left_col_w
  let x2 := left_col_w + col_w
  let y5 := y4 + 6
  let y6 := y5 + ROW_H + 6
  let rowres := tableRowOps PADDING (x1 + col_w - 10) (x2 + col_w - 10) W (fig3_rows n) y6
  let y7 := rowres.2
  let y8 := y7 + 8
  (H,
    (DrawOp.rect THIN THIN (W - THIN) (H - THIN) THICK ::
     DrawOp.text (W / 2) (PADDING + ((h_title.fdiv 2 : ℤ) : ℚ)) "Información Nutricional"
       title_font Align.center ::
     DrawOp.line THIN y1 (W - THIN) y1 THICK ::
     DrawOp.text PADDING (y2 + 6) (portion_label_text i) (FONT_REG SMALL_FS) Align.left ::
     DrawOp.text PADDING y3 (servings_label_text i) (FONT_REG SMALL_FS) Align.left ::
     DrawOp.line THIN y4 (W - THIN) y4 THICK ::
     DrawOp.line x1 (y4 - ROW_H) x1 (H - THIN) MEDIUM ::
     DrawOp.line x2 (y4 - ROW_H) x2 (H - THIN) MEDIUM ::
     DrawOp.text PADDING (y5 + ROW_H / 2) "Calorías (kcal)" (FONT_BOLD BASE_FS) Align.left ::
     DrawOp.text (x1 + col_w / 2) (y5 - 6) (per100_label i) (FONT_REG BASE_FS) Align.center ::
     DrawOp.text (x2 + col_w / 2) (y5 - 6) perportion_label (FONT_REG BASE_FS) Align.center ::
     DrawOp.text (x1 + col_w - 10) (y5 + ROW_H / 2) (cal_100_txt i n) (FONT_BOLD BASE_FS)
       Align.right ::
     DrawOp.text (x2 + col_w - 10) (y5 + ROW_H / 2) (cal_pp_txt i n) (FONT_BOLD BASE_FS)
       Align.right ::
     DrawOp.line THIN y6 (W - THIN) y6 THICK ::
     rowres.1) ++
    (DrawOp.line THIN y7 (W - THIN) y7 THIN ::
     [DrawOp.text PADDING (y8 + 4) (foot_str i) (FONT_REG SMALL_FS) Align.left]))

/-! ## Figure 4 — tabular (app.py lines 671-795) -/

def draw_figure4_tabular (mea : Measure) (i : Inputs) : ℚ × List DrawOp :=
  let n := normalizeState i
  let W : ℚ := 1500
  let col0_w : ℚ := 370
  let col1_w : ℚ := 470
  let col2_w : ℚ := 330
  let col3_w : ℚ := 330
  let H : ℚ := 1100
  let title_font := FONT_BOLD TITLE_FS
  let h_title : ℤ := (mea "Información Nutricional" title_font).2
  let y1 : ℚ := PADDING + (h_title : ℚ) + 8
  let x1 := col0_w
  let x2 := col0_w + col1_w
  let x3 := col0_w + col1_w + col2_w
  let y2 := y1 + 6
  let y3 := y2 + ROW_H
  let step : ℚ := (pyInt (ROW_H * (9 / 10)) : ℚ)
  let y4 := y3 + step
  let rowres := tableRowOps (x1 + 10) (x2 + col2_w - 12) (x3 + col3_w - 12) W (fig4_rows n) y4
  let y5 := rowres.2
  let vmres :=
    if i.selected_vm = [] then (([] : List DrawOp), y5)
    else
      let r := fig4VmOps (x1 + 10) (x2 + col2_w - 12) (x3 + col3_w - 12) W
        (i.selected_vm.map (vmRow n)) y5
      (DrawOp.line THIN y5 (W - THIN) y5 THIN :: r.1, r.2)
  let y6 := vmres.2
  let y7 := y6 + 8
  (H,
    (DrawOp.rect THIN THIN (W - THIN) (H - THIN) THICK ::
     DrawOp.text (W / 2) (PADDING + (h_title : ℚ) / 2) "Información Nutricional" title_font
       Align.center ::
     DrawOp.line THIN y1 (W - THIN) y1 THICK ::
     DrawOp.line x1 y1 x1 (H - THIN) MEDIUM ::
     DrawOp.line x2 y1 x2 (H - THIN) MEDIUM ::
     DrawOp.line x3 y1 x3 (H - THIN) MEDIUM ::
     DrawOp.text (x1 + col1_w / 2) (y2 - 6) "Calorías" (FONT_BOLD BASE_FS) Align.center ::
     DrawOp.text (x2 + col2_w / 2) (y2 - 6) (per100_label i) (FONT_REG BASE_FS) Align.center ::
     DrawOp.text (x3 + col3_w / 2) (y2 - 6) perportion_label (FONT_REG BASE_FS) Align.center ::
     DrawOp.line THIN y2 (W - THIN) y2 THIN ::
     DrawOp.text PADDING (y2 + ROW_H / 2) (portion_label_text i) (FONT_REG SMALL_FS) Align.left ::
     DrawOp.text (x1 + 10) (y2 + ROW_H / 2) "Calorías (kcal)" (FONT_BOLD BASE_FS) Align.left ::
     DrawOp.text (x2 + col2_w - 12) (y2 + ROW_H / 2) (cal_100_txt i n) (FONT_BOLD BASE_FS)
       Align.right ::
     DrawOp.text (x3 + col3_w - 12) (y2 + ROW_H / 2) (cal_pp_txt i n) (FONT_BOLD BASE_FS)
       Align.right ::
     DrawOp.line THIN y3 (W - THIN) y3 THIN ::
     DrawOp.text PADDING (y3 + step / 2) (servings_label_text i) (FONT_REG SMALL_FS) Align.left ::
     rowres.1) ++
    (vmres.1 ++
     (DrawOp.line THIN y6 (W - THIN) y6 THIN ::
      [DrawOp.text PADDING (y7 + 4) (foot_str i) (FONT_REG SMALL_FS) Align.left])))

/-! ## Figure 5 — linear (app.py lines 800-895) -/

/-- One micronutrient sentence segment (app.py lines 834-843 / 869-878). -/
def fig5VmSeg (vmv : String → ℚ) (vm : String) : String × Bool :=
  let v := vmv vm
  let unit := vm_unit_of vm
  let label := clean_vm_label vm
  if unit = "µg ER" then (", " ++ label ++ " " ++ fmt_uger v 1, false)
  else if unit = "µg" then (", " ++ label ++ " " ++ fmt_ug v 1, false)
  else (", " ++ label ++ " " ++ fmt_mg_int v, false)

/-- The per-100 sentence of Figure 5 (app.py lines 825-843): note that it has
no saturated-fat, trans-fat, fiber or total-sugars segment. -/
def fig5_parts_100 (i : Inputs) : List (String × Bool) :=
  let n := normalizeState i
  [("Calorías " ++ fmt_kcal n.kcal_100, true),
   (", Grasa total " ++ fmt_g_only n.vals.fat_total_100 1 ++ " g", false),
   (", Sodio " ++ toString (pyRound n.vals.sodium_100_mg) ++ " mg", true),
   (", Carbohidratos totales " ++ fmt_g_only n.vals.carb_100 1 ++ " g", false),
   (", Azúcares añadidos " ++ fmt_g_only n.vals.sugars_added_100 1 ++ " g", true),
   (", Proteína " ++ fmt_g_only n.vals.protein_100 1 ++ " g", false)] ++
  i.selected_vm.map (fig5VmSeg n.vm_100)

/-- The per-portion sentence of Figure 5 (app.py lines 859-878). -/
def fig5_parts_pp (i : Inputs) : List (String × Bool) :=
  let n := normalizeState i
  [("Tamaño de porción: 1 unidad (" ++ toString (pyRound i.portion_size) ++ portion_unit i ++ ")",
     false),
   (", Número de porciones por envase: Aprox. " ++ fmt_g_only i.servings_per_pack 0, false),
   (", Calorías " ++ fmt_kcal n.kcal_pp, true),
   (", Grasa total " ++ fmt_g_only n.vals.fat_total_pp 1 ++ " g", false),
   (", Sodio " ++ toString (pyRound n.vals.sodium_pp_mg) ++ " mg", true),
   (", Carbohidratos totales " ++ fmt_g_only n.vals.carb_pp 1 ++ " g", false),
   (", Azúcares añadidos " ++ fmt_g_only n.vals.sugars_added_pp 1 ++ " g", true),
   (", Proteína " ++ fmt_g_only n.vals.protein_pp 1 ++ " g", false)] ++
  i.selected_vm.map (fig5VmSeg n.vm_pp)

/-- The sentence-painting loop of Figure 5: each segment advances `x` by its
measured width. -/
def fig5PaintOps (mea : Measure) (y : ℚ) : List (String × Bool) → ℚ → List DrawOp
  | [], _ => []
  | (seg, b) :: ps, x =>
    let f := if b then FONT_BOLD BASE_FS else FONT_REG BASE_FS
    DrawOp.text x y seg f Align.left :: fig5PaintOps mea y ps (x + ((mea seg f).1 : ℚ))

def draw_figure5_linear (mea : Measure) (i : Inputs) : ℚ × List DrawOp :=
  let W : ℚ := 1600
  let H : ℚ := 340 + 40 * ((max 1 i.selected_vm.length : ℕ) : ℚ)
  let title_font := FONT_BOLD (TITLE_FS - 2)
  let yt1 := PADDING + 8
  let yt2 := yt1 + 44
  let yt3 := yt2 + 44
  let yt4 := yt3 + 44
  let yt5 := yt4 + 46
  (H,
    (DrawOp.rect THIN THIN (W - THIN) (H - THIN) THICK ::
     DrawOp.text PADDING yt1 "Información nutricional (100 g o 100 mL):" title_font Align.left ::
     fig5PaintOps mea yt2 (fig5_parts_100 i) PADDING) ++
    (DrawOp.text PADDING yt3 "Información nutricional (porción):" title_font Align.left ::
     fig5PaintOps mea yt4 (fig5_parts_pp i) PADDING) ++
    [DrawOp.text PADDING yt5 (foot_str i) (FONT_REG SMALL_FS) Align.left])

/-! ## Helper lemmas and sample form states -/

theorem vmRow_label (n : Normalized) (vm : String) : (vmRow n vm).label = clean_vm_label vm := by
  unfold vmRow
  dsimp only
  split
  · rfl
  · split <;> rfl

theorem vmRow_bold (n : Normalized) (vm : String) : (vmRow n vm).bold = false := by
  unfold vmRow
  dsimp only
  split
  · rfl
  · split <;> rfl

theorem fig5VmSeg_snd (f : String → ℚ) (vm : String) : (fig5VmSeg f vm).2 = false := by
  unfold fig5VmSeg
  dsimp only
  split
  · rfl
  · split <;> rfl

theorem map_label_vmRow (n : Normalized) (sel : List String) :
    (sel.map (vmRow n)).map Row.label = sel.map clean_vm_label := by
  rw [List.map_map]
  exact List.map_congr_left fun vm _ => vmRow_label n vm

theorem map_snd_fig5VmSeg (f : String → ℚ) (sel : List String) :
    (sel.map (fig5VmSeg f)).map Prod.snd = sel.map fun _ => false := by
  rw [List.map_map]
  exact List.map_congr_left fun vm _ => fig5VmSeg_snd f vm

/-- The end-to-end scenario of the spec (fat 5 g, sat 2 g, trans 0 mg,
carb 20 g, sugars 10 g, added 8 g, fiber 2 g, protein 3 g, sodium 150 mg,
portion 50 g, per-portion basis), with no micronutrients selected. -/
def sampleInputs : Inputs :=
  { is_liquid := false
    input_basis := .porPorcion
    portion_size := 50
    servings_per_pack := 1
    include_kj := false
    fat_total_input := 5
    sat_fat_input := 2
    trans_fat_input_mg := 0
    carb_input := 20
    sugars_total_input := 10
    sugars_added_input := 8
    fiber_input := 2
    protein_input := 3
    sodium_input_mg := 150
    selected_vm := []
    vm_value := fun _ => 0
    footnote_base := "" }

/-- The same scenario with the five default micronutrient selections. -/
def sampleVmInputs : Inputs :=
  { sampleInputs with
    selected_vm := ["Vitamina A (µg ER)", "Vitamina D (µg)", "Calcio (mg)", "Hierro (mg)",
      "Zinc (mg)"] }

/-- The same scenario with trans fat entered as 820 mg. -/
def sampleTransInputs : Inputs := { sampleInputs with trans_fat_input_mg := 820 }

/-- A degenerate font-metric oracle; heights and row structure ignore it. -/
def zeroMeasure : Measure := fun _ _ => (0, 0)

/-- C6: with per-portion entry the trans-fat milligram input is divided by
1000 into grams for the internal per-portion value, multiplied back by 1000
after normalization (recovering the input exactly), and the per-portion cell
of the `Grasa trans` row shows `fmt_mg_int` of that; at 820 mg the internal
value is 0.82 g and the cell reads `820 mg`. -/
theorem trans_fat_unit_roundtrip (i : Inputs) (hb : i.input_basis = .porPorcion) :
    (normalizeState i).vals.trans_fat_pp = i.trans_fat_input_mg / 1000 ∧
    (normalizeState i).trans_pp_mg = i.trans_fat_input_mg ∧
    ((fig1_rowEntries i).map Row.vpp).get? 4 = some (fmt_mg_int i.trans_fat_input_mg) ∧
    (i.trans_fat_input_mg = 820 →
      (normalizeState i).vals.trans_fat_pp = 82 / 100 ∧
      ((fig1_rowEntries i).map Row.vpp).get? 4 = some "820 mg") := by
  have hpp : (normalizeState i).vals.trans_fat_pp = i.trans_fat_input_mg / 1000 := by
    simp [normalizeState, basisVals, hb]
  have hmg : (normalizeState i).trans_pp_mg = i.trans_fat_input_mg := by
    simp [normalizeState, basisVals, hb]
  have hcell : ((fig1_rowEntries i).map Row.vpp).get? 4
      = some (fmt_mg_int ((normalizeState i).trans_pp_mg)) := rfl
  refine ⟨hpp, hmg, by rw [hcell, hmg], fun h820 => ⟨by rw [hpp, h820]; norm_num, ?_⟩⟩
  rw [hcell, hmg, h820]
  with_unfolding_all rfl

theorem trans_fat_unit_roundtrip_witness :
    (normalizeState sampleTransInputs).vals.trans_fat_pp = 82 / 100 ∧
    ((fig1_rowEntries sampleTransInputs).map Row.vpp).get? 4 = some "820 mg" :=
  (trans_fat_unit_roundtrip sampleTransInputs rfl).2.2.2 rfl

/-- C8 counterexample: the Tabular page height is the literal constant 1100
and the Simplified height the constant 706, for zero as for five selected
micronutrients — so the height is not computed from the rendered row count
and does not vary with the micronutrient selection in those formats. -/
theorem tabular_height_static :
    (draw_figure4_tabular zeroMeasure sampleInputs).1 = 1100 ∧
    (draw_figure4_tabular zeroMeasure sampleVmInputs).1 = 1100 ∧
    (draw_figure3_simple zeroMeasure sampleInputs).1 = 706 ∧
    (draw_figure3_simple zeroMeasure sampleVmInputs).1 = 706 ∧
    sampleInputs.selected_vm.length = 0 ∧
    sampleVmInputs.selected_vm.length = 5 := by
  refine ⟨by with_unfolding_all rfl, by with_unfolding_all rfl, by with_unfolding_all rfl,
    by with_unfolding_all rfl, rfl, rfl⟩

/-- C8 (amended): the Vertical height is `810 + 42·|selected_vm|` (with the
micronutrient block contributing only when nonempty) and the Linear height is
`340 + 40·max(1, |selected_vm|)`, both varying with the selection; the
Simplified and Tabular heights are the fixed constants 706 and 1100. -/
theorem canvas_height_formulas (mea : Measure) (i : Inputs) :
    (draw_figure1_vertical mea i).1
      = 810 + 42 * (if i.selected_vm = [] then 0 else (i.selected_vm.length : ℚ)) ∧
    (draw_figure3_simple mea i).1 = 706 ∧
    (draw_figure4_tabular mea i).1 = 1100 ∧
    (draw_figure5_linear mea i).1
      = (if i.selected_vm = [] then 380 else 340 + 40 * (i.selected_vm.length : ℚ)) := by
  refine ⟨?_, by simp [draw_figure3_simple, ROW_H]; norm_num, by simp [draw_figure4_tabular], ?_⟩
  · by_cases hsel : i.selected_vm = []
    · simp [draw_figure1_vertical, hsel, ROW_H]
      norm_num
    · have hpos : 0 < i.selected_vm.length := List.length_pos.mpr hsel
      simp [draw_figure1_vertical, hsel, hpos, ROW_H]
      ring
  · by_cases hsel : i.selected_vm = []
    · simp [draw_figure5_linear, hsel]
      norm_num
    · have hpos : 0 < i.selected_vm.length := List.length_pos.mpr hsel
      have hmax : max 1 i.selected_vm.length = i.selected_vm.length := Nat.max_eq_right hpos
      simp [draw_figure5_linear, hsel, hmax]

/-- C5 counterexample: in the Tabular format the `Sodio` row is emitted at
index 4, immediately after `Grasa Trans` and before `Carbohidratos totales`
(index 5) and `Proteína` (index 9) — not after protein as the regulation
order requires; the Linear sentence likewise puts sodium right after total
fat and before carbohydrates. -/
theorem tabular_sodium_before_carbs :
    ((fig4_rowEntries sampleInputs).map Row.label).indexOf "Sodio" = 4 ∧
    ((fig4_rowEntries sampleInputs).map Row.label).indexOf "Carbohidratos totales" = 5 ∧
    ((fig4_rowEntries sampleInputs).map Row.label).indexOf "Proteína" = 9 ∧
    (fig5_parts_100 sampleInputs).map Prod.fst
      = ["Calorías 274", ", Grasa total 10 g", ", Sodio 300 mg",
         ", Carbohidratos totales 40 g", ", Azúcares añadidos 16 g", ", Proteína 6 g"] := by
  refine ⟨by with_unfolding_all rfl, by with_unfolding_all rfl, by with_unfolding_all rfl,
    by with_unfolding_all rfl⟩

/-- C5 (amended): the Vertical rows follow the regulation order (with an
extra polyunsaturated-fat row inside the fat block); the Simplified rows
follow it with fiber, total-fat detail and protein omitted and sodium last;
the Tabular format moves `Sodio` to right after `Grasa Trans`, before the
carbohydrate block and protein; selected micronutrients follow in selection
order, and the footnote is the last draw call of every format. -/
theorem row_order_spec (mea : Measure) (i : Inputs) :
    (fig1_rowEntries i).map Row.label
      = ["Calorías (kcal)", "Grasa total", "Grasa poliinsaturada", "Grasa saturada",
         "Grasa trans", "Carbohidratos totales", "Fibra dietaria", "Azúcares totales",
         "Azúcares añadidos", "Proteína", "Sodio"] ++ i.selected_vm.map clean_vm_label ∧
    (fig3_rowEntries i).map Row.label
      = ["Calorías (kcal)", "Grasa total", "Grasa saturada", "Grasa trans",
         "Carbohidratos totales", "Azúcares totales", "Azúcares añadidos", "Sodio"] ∧
    (fig4_rowEntries i).map Row.label
      = ["Calorías (kcal)", "Grasa total", "Grasa saturada", "Grasa Trans", "Sodio",
         "Carbohidratos totales", "Fibra dietaria", "Azúcares totales", "Azúcares añadidos",
         "Proteína"] ++ i.selected_vm.map clean_vm_label ∧
    (draw_figure1_vertical mea i).2.getLast?.bind textContent = some (foot_str i) ∧
    (draw_figure3_simple mea i).2.getLast?.bind textContent = some (foot_str i) ∧
    (draw_figure4_tabular mea i).2.getLast?.bind textContent = some (foot_str i) ∧
    (draw_figure5_linear mea i).2.getLast?.bind textContent = some (foot_str i) := by
  refine ⟨?_, ?_, ?_, ?_, ?_, ?_, ?_⟩
  · simp [fig1_rowEntries, fig1_rows, List.map_map, Function.comp, vmRow_label]
  · simp [fig3_rowEntries, fig3_rows]
  · simp [fig4_rowEntries, fig4_rows, List.map_map, Function.comp, vmRow_label]
  · simp only [draw_figure1_vertical]
    rw [List.getLast?_append_of_ne_nil _ (by simp)]
    rfl
  · simp only [draw_figure3_simple]
    rw [List.getLast?_append_of_ne_nil _ (by simp)]
    rfl
  · simp only [draw_figure4_tabular]
    rw [List.getLast?_append_of_ne_nil _ (by simp),
      List.getLast?_append_of_ne_nil _ (by simp)]
    rfl
  · simp only [draw_figure5_linear]
    rw [List.getLast?_append_of_ne_nil _ (by simp)]
    rfl

/-- The regulation emphasis set, as the row labels the four figures use
(Figure 4 writes `Grasa Trans` with a capital T). -/
def emphasisLabels : List String :=
  ["Calorías (kcal)", "Grasa saturada", "Grasa trans", "Grasa Trans", "Azúcares añadidos",
   "Sodio"]

theorem map_snd_comp_fig5VmSeg (f : String → ℚ) (sel : List String) :
    List.map (Prod.snd ∘ fig5VmSeg f) sel = List.replicate sel.length false := by
  induction sel with
  | nil => rfl
  | cons a l ih => simp [Function.comp, fig5VmSeg_snd, ih, List.replicate_succ]

theorem clean_vm_label_not_emphasis (vm : String) (h : vm ∈ vm_options) :
    clean_vm_label vm ∉ emphasisLabels := by
  fin_cases h <;> decide

theorem fig1_rows_bold_iff (n : Normalized) :
    ∀ r ∈ fig1_rows n, (r.bold = true ↔ r.label ∈ emphasisLabels) := by
  intro r hr
  simp only [fig1_rows, List.mem_cons, List.not_mem_nil, or_false] at hr
  rcases hr with rfl | rfl | rfl | rfl | rfl | rfl | rfl | rfl | rfl <;> simp [emphasisLabels]

theorem fig3_rows_bold_iff (n : Normalized) :
    ∀ r ∈ fig3_rows n, (r.bold = true ↔ r.label ∈ emphasisLabels) := by
  intro r hr
  simp only [fig3_rows, List.mem_cons, List.not_mem_nil, or_false] at hr
  rcases hr with rfl | rfl | rfl | rfl | rfl | rfl | rfl <;> simp [emphasisLabels]

theorem fig4_rows_bold_iff (n : Normalized) :
    ∀ r ∈ fig4_rows n, (r.bold = true ↔ r.label ∈ emphasisLabels) := by
  intro r hr
  simp only [fig4_rows, List.mem_cons, List.not_mem_nil, or_false] at hr
  rcases hr with rfl | rfl | rfl | rfl | rfl | rfl | rfl | rfl | rfl <;> simp [emphasisLabels]

theorem vmRow_bold_iff (n : Normalized) (vm : String) (h : vm ∈ vm_options) :
    ((vmRow n vm).bold = true ↔ (vmRow n vm).label ∈ emphasisLabels) := by
  rw [vmRow_bold, vmRow_label]
  simp only [Bool.false_eq_true, false_iff]
  exact clean_vm_label_not_emphasis vm h

/-- C4 counterexample: in the Linear format (at the spec's end-to-end sample
values) the bolded sentence segments are exactly energy, sodium and added
sugars, and no segment of either sentence mentions saturated or trans fat at
all — so the claimed format-invariant five-element emphasis set fails there. -/
theorem linear_omits_saturated_trans_emphasis :
    ((fig5_parts_100 sampleInputs).filter Prod.snd).map Prod.fst
      = ["Calorías 274", ", Sodio 300 mg", ", Azúcares añadidos 16 g"] ∧
    ((fig5_parts_pp sampleInputs).filter Prod.snd).map Prod.fst
      = [", Calorías 137", ", Sodio 150 mg", ", Azúcares añadidos 8 g"] ∧
    ((fig5_parts_100 sampleInputs).all fun p =>
      !(containsSeg p.1.data "Grasa saturada".data) &&
        !(containsSeg p.1.data "Grasa trans".data)) = true ∧
    ((fig5_parts_pp sampleInputs).all fun p =>
      !(containsSeg p.1.data "Grasa saturada".data) &&
        !(containsSeg p.1.data "Grasa trans".data)) = true := by
  refine ⟨by with_unfolding_all rfl, by with_unfolding_all rfl, by with_unfolding_all rfl,
    by with_unfolding_all rfl⟩

/-- C4 (amended): in the Vertical, Simplified and Tabular formats a row is
bold exactly when it is one of {energy, saturated fat, trans fat, added
sugars, sodium} (micronutrient rows from the sidebar options are never
bold); in the Linear format the bold segments are exactly energy, sodium and
added sugars — its sentences carry no saturated-fat or trans-fat rows. -/
theorem emphasis_rows_spec (i : Inputs) (hvm : ∀ vm ∈ i.selected_vm, vm ∈ vm_options) :
    (∀ r ∈ fig1_rowEntries i, (r.bold = true ↔ r.label ∈ emphasisLabels)) ∧
    (∀ r ∈ fig3_rowEntries i, (r.bold = true ↔ r.label ∈ emphasisLabels)) ∧
    (∀ r ∈ fig4_rowEntries i, (r.bold = true ↔ r.label ∈ emphasisLabels)) ∧
    (fig5_parts_100 i).map Prod.snd
      = [true, false, true, false, true, false] ++ i.selected_vm.map (fun _ => false) ∧
    (fig5_parts_pp i).map Prod.snd
      = [false, false, true, false, true, false, true, false]
        ++ i.selected_vm.map (fun _ => false) := by
  refine ⟨?_, ?_, ?_, ?_, ?_⟩
  · intro r hr
    simp only [fig1_rowEntries, List.mem_cons, List.mem_append, List.mem_map] at hr
    rcases hr with rfl | hr | rfl | ⟨vm, hvm2, rfl⟩
    · simp [emphasisLabels]
    · exact fig1_rows_bold_iff _ r hr
    · simp [emphasisLabels]
    · exact vmRow_bold_iff _ vm (hvm vm hvm2)
  · intro r hr
    simp only [fig3_rowEntries, List.mem_cons] at hr
    rcases hr with rfl | hr
    · simp [emphasisLabels]
    · exact fig3_rows_bold_iff _ r hr
  · intro r hr
    simp only [fig4_rowEntries, List.mem_cons, List.mem_append, List.mem_map] at hr
    rcases hr with rfl | hr | ⟨vm, hvm2, rfl⟩
    · simp [emphasisLabels]
    · exact fig4_rows_bold_iff _ r hr
    · exact vmRow_bold_iff _ vm (hvm vm hvm2)
  · simp [fig5_parts_100, List.map_map, map_snd_comp_fig5VmSeg]
  · simp [fig5_parts_pp, List.map_map, map_snd_comp_fig5VmSeg]

theorem emphasis_rows_spec_witness :
    (∀ r ∈ fig1_rowEntries sampleVmInputs, (r.bold = true ↔ r.label ∈ emphasisLabels)) ∧
    (fig5_parts_100 sampleVmInputs).map Prod.snd
      = [true, false, true, false, true, false]
        ++ sampleVmInputs.selected_vm.map (fun _ => false) := by
  have h := emphasis_rows_spec sampleVmInputs (by decide)
  exact ⟨h.1, h.2.2.2.1⟩

theorem fig1VmOps_countP_isText (vx px : ℚ) (rs : List Row) (y : ℚ) :
    (fig1VmOps vx px rs y).1.countP isText = 3 * rs.length := by
  induction rs generalizing y with
  | nil => simp [fig1VmOps]
  | cons r rs ih =>
    simp [fig1VmOps, List.countP_cons, isText, ih]
    ring

theorem fig1VmOps_countP_isLine (vx px : ℚ) (rs : List Row) (y : ℚ) :
    (fig1VmOps vx px rs y).1.countP isLine = 0 := by
  induction rs generalizing y with
  | nil => simp [fig1VmOps]
  | cons r rs ih => simp [fig1VmOps, List.countP_cons, isLine, ih]

theorem fig4VmOps_countP_isText (lx vx px W : ℚ) (rs : List Row) (y : ℚ) :
    (fig4VmOps lx vx px W rs y).1.countP isText = 3 * rs.length := by
  induction rs generalizing y with
  | nil => simp [fig4VmOps]
  | cons r rs ih =>
    simp [fig4VmOps, List.countP_cons, isText, isLine, ih]
    ring

theorem fig4VmOps_countP_isLine (lx vx px W : ℚ) (rs : List Row) (y : ℚ) :
    (fig4VmOps lx vx px W rs y).1.countP isLine = rs.length := by
  induction rs generalizing y with
  | nil => simp [fig4VmOps]
  | cons r rs ih => simp [fig4VmOps, List.countP_cons, isText, isLine, ih]

theorem fig5PaintOps_countP_isText (mea : Measure) (y : ℚ) (ps : List (String × Bool)) (x : ℚ) :
    (fig5PaintOps mea y ps x).countP isText = ps.length := by
  induction ps generalizing x with
  | nil => simp [fig5PaintOps]
  | cons p ps ih =>
    obtain ⟨seg, b⟩ := p
    simp [fig5PaintOps, List.countP_cons, isText, ih]

theorem fig5PaintOps_countP_isLine (mea : Measure) (y : ℚ) (ps : List (String × Bool)) (x : ℚ) :
    (fig5PaintOps mea y ps x).countP isLine = 0 := by
  induction ps generalizing x with
  | nil => simp [fig5PaintOps]
  | cons p ps ih =>
    obtain ⟨seg, b⟩ := p
    simp [fig5PaintOps, List.countP_cons, isLine, ih]

/-- C9: the exact draw-call budget of every format as a function of the
micronutrient selection.  With `selected_vm = []` each figure emits exactly
its base text calls (no micronutrient rows) and its base rules (no extra
separator); a nonempty selection adds 3 text cells per micronutrient plus
one separator rule in the Vertical format, 3 cells and one rule per row plus
one separator in the Tabular format, one sentence segment per micronutrient
and sentence in the Linear format, and nothing in the Simplified format. -/
theorem vm_section_omission_spec (mea : Measure) (i : Inputs) :
    (draw_figure1_vertical mea i).2.countP isText = 39 + 3 * i.selected_vm.length ∧
    (draw_figure1_vertical mea i).2.countP isLine
      = 16 + (if i.selected_vm = [] then 0 else 1) ∧
    (draw_figure3_simple mea i).2.countP isText = 30 ∧
    (draw_figure3_simple mea i).2.countP isLine = 13 ∧
    (draw_figure4_tabular mea i).2.countP isText = 37 + 3 * i.selected_vm.length ∧
    (draw_figure4_tabular mea i).2.countP isLine
      = 16 + (if i.selected_vm = [] then 0 else 1 + i.selected_vm.length) ∧
    (draw_figure5_linear mea i).2.countP isText = 17 + 2 * i.selected_vm.length ∧
    (draw_figure5_linear mea i).2.countP isLine = 0 := by
  refine ⟨?_, ?_, ?_, ?_, ?_, ?_, ?_, ?_⟩
  · by_cases hsel : i.selected_vm = []
    all_goals simp [draw_figure1_vertical, hsel, tableRowOps, fig1_rows, List.countP_cons,
      List.countP_append, isText, isLine, fig1VmOps_countP_isText, fig1VmOps_countP_isLine]
    all_goals omega
  · by_cases hsel : i.selected_vm = [] <;>
      simp [draw_figure1_vertical, hsel, tableRowOps, fig1_rows, List.countP_cons,
        List.countP_append, isText, isLine, fig1VmOps_countP_isText, fig1VmOps_countP_isLine]
  · simp [draw_figure3_simple, tableRowOps, fig3_rows, List.countP_cons, List.countP_append,
      isText, isLine]
  · simp [draw_figure3_simple, tableRowOps, fig3_rows, List.countP_cons, List.countP_append,
      isText, isLine]
  · by_cases hsel : i.selected_vm = []
    all_goals simp [draw_figure4_tabular, hsel, tableRowOps, fig4_rows, List.countP_cons,
      List.countP_append, isText, isLine, fig4VmOps_countP_isText, fig4VmOps_countP_isLine]
    all_goals omega
  · by_cases hsel : i.selected_vm = []
    all_goals simp [draw_figure4_tabular, hsel, tableRowOps, fig4_rows, List.countP_cons,
      List.countP_append, isText, isLine, fig4VmOps_countP_isText, fig4VmOps_countP_isLine]
    all_goals omega
  · simp [draw_figure5_linear, fig5_parts_100, fig5_parts_pp, List.countP_cons,
      List.countP_append, isText, isLine, fig5PaintOps_countP_isText,
      fig5PaintOps_countP_isLine]
    ring
  · simp [draw_figure5_linear, List.countP_cons, List.countP_append, isText, isLine,
      fig5PaintOps_countP_isText, fig5PaintOps_countP_isLine]
